import Mathlib

/-!
Verification of `examples/extformer_moe/extformer_moe_enso_train.py`
(PaddleScience, ExtFormer-MoE ENSO training driver).

The development has two parts.

Part A embeds the one real algorithm of the file, `get_parameter_names`
(a recursive walk over a `paddle.nn.Layer` tree collecting qualified
parameter names while skipping subtrees rooted at children of forbidden
layer types), together with the weight-decay parameter grouping built
from it in `train`.  Layer trees are modelled as finite trees with a
type tag (standing for the Python class of the layer), a list of direct
parameter names (`_parameters`) and named children (`named_children`);
parameter names are modelled as `List Char` so that the Python substring
test `"bias" in name` and the qualified-name joining `f"{name}.{n}"` are
exact list operations.

Part B embeds the driver functions `train`, `evaluate` and `main` as
trace semantics: each run is the list of externally visible actions
(configuration dictionaries assembled, constraints / validators / model /
optimizer constructed, solver objects constructed and their `train` /
`eval` methods invoked) in program order, with every payload computed
from the configuration exactly as in the source.  The solver itself is
the wrapped external framework and stays opaque: its calls are events.
-/

/-! ### Part A: layer trees and `get_parameter_names` -/

/-- A parameter or sublayer name (a Python string). -/
abbrev PName := List Char

/-- A `paddle.nn.Layer` as seen by this file: a type tag (the Python
class of the layer), the keys of its own direct `_parameters` dict, and
its `named_children` list. -/
inductive Layer where
  | mk (ty : Nat) (params : List PName) (children : List (PName × Layer))

/-- The Python class of the layer, as a tag.  `isinstance(child, tuple(ts))`
is modelled as membership of this tag in the tag list `ts`. -/
def Layer.ty : Layer → Nat
  | .mk t _ _ => t

/-- The keys of the layer's own direct `_parameters` dict. -/
def Layer.params : Layer → List PName
  | .mk _ ps _ => ps

/-- The layer's `named_children()` list. -/
def Layer.children : Layer → List (PName × Layer)
  | .mk _ _ cs => cs

/-- The type tag of `paddle.nn.LayerNorm`. -/
def nnLayerNorm : Nat := 0

mutual

/-- `get_parameter_names(model, forbidden_layer_types)` from the source:
for every named child, recursively collected names are qualified with
`f"{name}.{n}"` and kept only when the child is not an instance of a
forbidden layer type (the guard of the comprehension does not depend on
the comprehension variable `n`); the model's own direct `_parameters`
keys are appended unconditionally. -/
def get_parameter_names : Layer → List Nat → List PName
  | .mk _ ps cs, forbidden => gpn_children cs forbidden ++ ps

/-- The `for name, child in model.named_children()` loop of
`get_parameter_names`, accumulating `result` in order. -/
def gpn_children : List (PName × Layer) → List Nat → List PName
  | [], _ => []
  | (name, child) :: rest, forbidden =>
      (((get_parameter_names child forbidden).filter
          (fun _ => !(forbidden.contains child.ty))).map
        (fun n => name ++ '.' :: n))
      ++ gpn_children rest forbidden

end

mutual

/-- `model.named_parameters()`: the qualified names of every parameter
in the tree, with no filtering. -/
def named_parameters : Layer → List PName
  | .mk _ ps cs => np_children cs ++ ps

/-- The child part of `named_parameters`. -/
def np_children : List (PName × Layer) → List PName
  | [] => []
  | (name, child) :: rest =>
      (named_parameters child).map (fun n => name ++ '.' :: n) ++ np_children rest

end

/-- Python `pat in s` for strings: `pat` occurs as a contiguous substring. -/
def strIn (pat s : List Char) : Bool :=
  s.tails.any (fun t => pat.isPrefixOf t)

/-- The string `"bias"`. -/
def biasStr : PName := ['b', 'i', 'a', 's']

/-- Lines 103-104 of the source: names of parameters that receive weight
decay, i.e. `get_parameter_names(model, [nn.LayerNorm])` with every name
containing `"bias"` removed. -/
def decay_parameters (model : Layer) : List PName :=
  (get_parameter_names model [nnLayerNorm]).filter (fun name => !(strIn biasStr name))

/-- Names of the first optimizer group:
`[p for n, p in model.named_parameters() if n in decay_parameters]`. -/
def decay_group_names (model : Layer) : List PName :=
  (named_parameters model).filter (fun n => (decay_parameters model).contains n)

/-- Names of the second optimizer group:
`[p for n, p in model.named_parameters() if n not in decay_parameters]`. -/
def no_decay_group_names (model : Layer) : List PName :=
  (named_parameters model).filter (fun n => !((decay_parameters model).contains n))

/-- The `optimizer_grouped_parameters` list of lines 105-116: each group
is its member parameter names together with its `weight_decay` value
(`cfg.TRAIN.wd` for the first group, `0.0` for the second). -/
def optimizer_grouped_parameters (model : Layer) (wd : ℚ) : List (List PName × ℚ) :=
  [(decay_group_names model, wd), (no_decay_group_names model, 0)]

/-- `qualify [n1, ..., nk] p` is the qualified parameter name
`n1.n2.....nk.p` produced by the nested `f"{name}.{n}"` joins. -/
def qualify : List PName → PName → PName
  | [], p => p
  | name :: rest, p => name ++ '.' :: qualify rest p

/-- A parameter of the tree located by the list of child names leading
to the layer that holds it directly. -/
inductive ParamPath : Layer → List PName → PName → Prop where
  | here {m : Layer} {p : PName} : p ∈ m.params → ParamPath m [] p
  | step {m : Layer} {name : PName} {c : Layer} {path : List PName} {p : PName} :
      (name, c) ∈ m.children → ParamPath c path p → ParamPath m (name :: path) p

/-- A parameter path on which no traversed child (the root excepted) is
an instance of a forbidden layer type. -/
inductive GoodPath (forbidden : List Nat) : Layer → List PName → PName → Prop where
  | here {m : Layer} {p : PName} : p ∈ m.params → GoodPath forbidden m [] p
  | step {m : Layer} {name : PName} {c : Layer} {path : List PName} {p : PName} :
      (name, c) ∈ m.children → c.ty ∉ forbidden →
      GoodPath forbidden c path p → GoodPath forbidden m (name :: path) p

/-- A parameter path that does traverse a child of forbidden type:
the parameter lies under a forbidden child module. -/
inductive BadPath (forbidden : List Nat) : Layer → List PName → PName → Prop where
  | hit {m : Layer} {name : PName} {c : Layer} {path : List PName} {p : PName} :
      (name, c) ∈ m.children → c.ty ∈ forbidden →
      ParamPath c path p → BadPath forbidden m (name :: path) p
  | deeper {m : Layer} {name : PName} {c : Layer} {path : List PName} {p : PName} :
      (name, c) ∈ m.children →
      BadPath forbidden c path p → BadPath forbidden m (name :: path) p

/-- Well-formedness of a layer tree, true of every real paddle model:
parameter names and child names contain no dot (paddle generates them
from identifiers), and sibling child names are distinct (paddle's
sublayer dict keys). -/
inductive Wf : Layer → Prop where
  | mk {t : Nat} {ps : List PName} {cs : List (PName × Layer)} :
      (∀ p ∈ ps, '.' ∉ p) →
      (∀ x ∈ cs, '.' ∉ x.1) →
      (cs.map Prod.fst).Nodup →
      (∀ x ∈ cs, Wf x.2) →
      Wf (.mk t ps cs)

/-- Structural strong induction over layer trees. -/
theorem Layer.strong_ind {P : Layer → Prop}
    (h : ∀ m : Layer, (∀ x ∈ m.children, P x.2) → P m) : ∀ m, P m := by
  intro m
  have key : ∀ n, ∀ m : Layer, sizeOf m ≤ n → P m := by
    intro n
    induction n with
    | zero =>
      intro m hm
      cases m with
      | mk t ps cs => simp at hm
    | succ n ih =>
      intro m hm
      apply h
      intro x hx
      apply ih
      cases m with
      | mk t ps cs =>
        simp only [Layer.children] at hx
        have h1 : sizeOf x < sizeOf cs := List.sizeOf_lt_of_mem hx
        obtain ⟨a, b⟩ := x
        simp only [mk.sizeOf_spec] at hm
        simp only [Prod.mk.sizeOf_spec] at h1
        simp only []
        omega
  exact key (sizeOf m) m le_rfl

example : get_parameter_names (.mk 1 [['w']] [(['a'], .mk 0 [['x']] [])]) [0] = [['w']] := by
  decide

example : get_parameter_names (.mk 1 [['w']] [(['a'], .mk 2 [['x']] [])]) [0] =
    [['a', '.', 'x'], ['w']] := by decide

/-- Membership in the child part of `get_parameter_names`, given the
characterization for every child. -/
theorem mem_gpn_children_iff (forbidden : List Nat) (cs : List (PName × Layer))
    (IH : ∀ x ∈ cs, ∀ y, y ∈ get_parameter_names x.2 forbidden ↔
        ∃ path p, GoodPath forbidden x.2 path p ∧ y = qualify path p) :
    ∀ x, x ∈ gpn_children cs forbidden ↔
      ∃ name c path p, (name, c) ∈ cs ∧ c.ty ∉ forbidden ∧
        GoodPath forbidden c path p ∧ x = name ++ '.' :: qualify path p := by
  induction cs with
  | nil => intro x; simp [gpn_children]
  | cons hd rest ih =>
    obtain ⟨name, child⟩ := hd
    intro x
    have IHhd := IH (name, child) (by simp)
    have IHrest : ∀ x ∈ rest, ∀ y, y ∈ get_parameter_names x.2 forbidden ↔
        ∃ path p, GoodPath forbidden x.2 path p ∧ y = qualify path p :=
      fun x hx => IH x (by simp [hx])
    rw [gpn_children]
    simp only [List.mem_append, List.mem_map, List.mem_filter]
    constructor
    · rintro (⟨n, ⟨hn, hguard⟩, rfl⟩ | hrest)
      · have hty : child.ty ∉ forbidden := by simp at hguard; exact hguard
        obtain ⟨path, p, hg, rfl⟩ := (IHhd n).1 hn
        exact ⟨name, child, path, p, by simp, hty, hg, rfl⟩
      · obtain ⟨name', c, path, p, hmem, hty, hg, rfl⟩ := (ih IHrest x).1 hrest
        exact ⟨name', c, path, p, by simp [hmem], hty, hg, rfl⟩
    · rintro ⟨name', c, path, p, hmem, hty, hg, rfl⟩
      rcases List.mem_cons.1 hmem with heq | hmem'
      · rw [Prod.mk.injEq] at heq
        obtain ⟨rfl, rfl⟩ := heq
        exact Or.inl ⟨qualify path p, ⟨(IHhd _).2 ⟨path, p, hg, rfl⟩, by simp [hty]⟩, rfl⟩
      · exact Or.inr ((ih IHrest _).2 ⟨name', c, path, p, hmem', hty, hg, rfl⟩)

/-- Membership characterization of `get_parameter_names`: a name is
returned exactly when it is the qualified name of a parameter reached by
a path that traverses no child of forbidden type. -/
theorem mem_get_parameter_names_iff (forbidden : List Nat) :
    ∀ (m : Layer) (x : PName),
      x ∈ get_parameter_names m forbidden ↔
        ∃ path p, GoodPath forbidden m path p ∧ x = qualify path p := by
  refine Layer.strong_ind ?_
  intro m IH x
  cases m with
  | mk t ps cs =>
    simp only [Layer.children] at IH
    rw [get_parameter_names]
    rw [List.mem_append]
    constructor
    · rintro (hc | hp)
      · obtain ⟨name, c, path, p, hmem, hty, hg, rfl⟩ :=
          (mem_gpn_children_iff forbidden cs (fun x hx => IH x hx) x).1 hc
        exact ⟨name :: path, p, GoodPath.step hmem hty hg, rfl⟩
      · exact ⟨[], x, GoodPath.here hp, rfl⟩
    · rintro ⟨path, p, hg, rfl⟩
      cases hg with
      | here hp => exact Or.inr hp
      | step hmem hty hg' =>
        exact Or.inl ((mem_gpn_children_iff forbidden cs (fun x hx => IH x hx) _).2
          ⟨_, _, _, _, hmem, hty, hg', rfl⟩)

/-- Membership in the child part of `named_parameters`, given the
characterization for every child. -/
theorem mem_np_children_iff (cs : List (PName × Layer))
    (IH : ∀ x ∈ cs, ∀ y, y ∈ named_parameters x.2 ↔
        ∃ path p, ParamPath x.2 path p ∧ y = qualify path p) :
    ∀ x, x ∈ np_children cs ↔
      ∃ name c path p, (name, c) ∈ cs ∧ ParamPath c path p ∧
        x = name ++ '.' :: qualify path p := by
  induction cs with
  | nil => intro x; simp [np_children]
  | cons hd rest ih =>
    obtain ⟨name, child⟩ := hd
    intro x
    have IHhd := IH (name, child) (by simp)
    have IHrest : ∀ x ∈ rest, ∀ y, y ∈ named_parameters x.2 ↔
        ∃ path p, ParamPath x.2 path p ∧ y = qualify path p :=
      fun x hx => IH x (by simp [hx])
    rw [np_children]
    simp only [List.mem_append, List.mem_map]
    constructor
    · rintro (⟨n, hn, rfl⟩ | hrest)
      · obtain ⟨path, p, hg, rfl⟩ := (IHhd n).1 hn
        exact ⟨name, child, path, p, by simp, hg, rfl⟩
      · obtain ⟨name', c, path, p, hmem, hg, rfl⟩ := (ih IHrest x).1 hrest
        exact ⟨name', c, path, p, by simp [hmem], hg, rfl⟩
    · rintro ⟨name', c, path, p, hmem, hg, rfl⟩
      rcases List.mem_cons.1 hmem with heq | hmem'
      · rw [Prod.mk.injEq] at heq
        obtain ⟨rfl, rfl⟩ := heq
        exact Or.inl ⟨qualify path p, (IHhd _).2 ⟨path, p, hg, rfl⟩, rfl⟩
      · exact Or.inr ((ih IHrest _).2 ⟨name', c, path, p, hmem', hg, rfl⟩)

/-- Membership characterization of `named_parameters`: the qualified
names of all parameters of the tree. -/
theorem mem_named_parameters_iff :
    ∀ (m : Layer) (x : PName),
      x ∈ named_parameters m ↔ ∃ path p, ParamPath m path p ∧ x = qualify path p := by
  refine Layer.strong_ind ?_
  intro m IH x
  cases m with
  | mk t ps cs =>
    simp only [Layer.children] at IH
    rw [named_parameters]
    rw [List.mem_append]
    constructor
    · rintro (hc | hp)
      · obtain ⟨name, c, path, p, hmem, hg, rfl⟩ :=
          (mem_np_children_iff cs (fun x hx => IH x hx) x).1 hc
        exact ⟨name :: path, p, ParamPath.step hmem hg, rfl⟩
      · exact ⟨[], x, ParamPath.here hp, rfl⟩
    · rintro ⟨path, p, hg, rfl⟩
      cases hg with
      | here hp => exact Or.inr hp
      | step hmem hg' =>
        exact Or.inl ((mem_np_children_iff cs (fun x hx => IH x hx) _).2
          ⟨_, _, _, _, hmem, hg', rfl⟩)

/-- In a list of named children with distinct names, a name determines
the child. -/
theorem nodup_key_eq {cs : List (PName × Layer)} (h : (cs.map Prod.fst).Nodup)
    {name : PName} {c c' : Layer} (h1 : (name, c) ∈ cs) (h2 : (name, c') ∈ cs) :
    c = c' := by
  induction cs with
  | nil => cases h1
  | cons hd rest ih =>
    rw [List.map_cons, List.nodup_cons] at h
    rcases List.mem_cons.1 h1 with he1 | hm1 <;> rcases List.mem_cons.1 h2 with he2 | hm2
    · rw [← he2] at he1; exact (Prod.mk.injEq .. ▸ he1).2
    · exfalso
      exact h.1 (by rw [← he1]; exact List.mem_map.2 ⟨(name, c'), hm2, rfl⟩)
    · exfalso
      exact h.1 (by rw [← he2]; exact List.mem_map.2 ⟨(name, c), hm1, rfl⟩)
    · exact ih h.2 hm1 hm2

/-- `Wf` passes to children. -/
theorem Wf.child {m : Layer} (h : Wf m) {name : PName} {c : Layer}
    (hm : (name, c) ∈ m.children) : Wf c := by
  cases h with
  | mk h1 h2 h3 h4 => exact h4 (name, c) hm

/-- A good path is in particular a parameter path. -/
theorem GoodPath.goodToParamPath {forbidden : List Nat} {m : Layer} {path : List PName}
    {p : PName} (h : GoodPath forbidden m path p) : ParamPath m path p := by
  induction h with
  | here hp => exact ParamPath.here hp
  | step hmem hty hg ih => exact ParamPath.step hmem ih

/-- A bad path is in particular a parameter path. -/
theorem BadPath.badToParamPath {forbidden : List Nat} {m : Layer} {path : List PName}
    {p : PName} (h : BadPath forbidden m path p) : ParamPath m path p := by
  induction h with
  | hit hmem hty hp => exact ParamPath.step hmem hp
  | deeper hmem hb ih => exact ParamPath.step hmem ih

/-- On a well-formed tree, all components of a parameter path are
dot-free. -/
theorem ParamPath.nodot {m : Layer} {path : List PName} {p : PName}
    (hwf : Wf m) (h : ParamPath m path p) :
    (∀ s ∈ path, '.' ∉ s) ∧ '.' ∉ p := by
  induction h with
  | @here m p hp =>
    refine ⟨by simp, ?_⟩
    cases hwf with
    | mk h1 h2 h3 h4 => exact h1 p hp
  | @step m name c path p hmem hpp ih =>
    have hc : Wf c := hwf.child hmem
    obtain ⟨ihpath, ihp⟩ := ih hc
    refine ⟨?_, ihp⟩
    intro s hs
    rcases List.mem_cons.1 hs with rfl | hs'
    · cases hwf with
      | mk h1 h2 h3 h4 => exact h2 (s, c) hmem
    · exact ihpath s hs'

/-- Splitting at the first dot: dot-free prefixes of a dotted join are
determined. -/
theorem append_dot_inj {a a' x x' : List Char} (ha : '.' ∉ a) (ha' : '.' ∉ a')
    (h : a ++ '.' :: x = a' ++ '.' :: x') : a = a' ∧ x = x' := by
  induction a generalizing a' with
  | nil =>
    cases a' with
    | nil => simpa using h
    | cons c as' =>
      exfalso
      rw [List.nil_append, List.cons_append] at h
      have hc : c = '.' := by
        have := congrArg (fun l => List.head? l) h
        simpa using this.symm
      exact ha' (by simp [hc])
  | cons c as ih =>
    cases a' with
    | nil =>
      exfalso
      rw [List.nil_append, List.cons_append] at h
      have hc : c = '.' := by
        have := congrArg (fun l => List.head? l) h
        simpa using this
      exact ha (by simp [hc])
    | cons c' as' =>
      rw [List.cons_append, List.cons_append, List.cons_eq_cons] at h
      obtain ⟨rfl, htl⟩ := h
      have has : '.' ∉ as := fun hm => ha (List.mem_cons_of_mem _ hm)
      have has' : '.' ∉ as' := fun hm => ha' (List.mem_cons_of_mem _ hm)
      obtain ⟨rfl, rfl⟩ := ih has has' htl
      exact ⟨rfl, rfl⟩

/-- On dot-free components, `qualify` is injective. -/
theorem qualify_inj :
    ∀ {path : List PName} {p : PName} {path' : List PName} {p' : PName},
      (∀ s ∈ path, '.' ∉ s) → '.' ∉ p →
      (∀ s ∈ path', '.' ∉ s) → '.' ∉ p' →
      qualify path p = qualify path' p' → path = path' ∧ p = p' := by
  intro path
  induction path with
  | nil =>
    intro p path' p' hpath hp hpath' hp' h
    cases path' with
    | nil => exact ⟨rfl, h⟩
    | cons name' rest' =>
      exfalso
      rw [qualify, qualify] at h
      exact hp (h ▸ List.mem_append_right name' (List.mem_cons_self '.' _))
  | cons name rest ih =>
    intro p path' p' hpath hp hpath' hp' h
    cases path' with
    | nil =>
      exfalso
      rw [qualify, qualify] at h
      exact hp' (h.symm ▸ List.mem_append_right name (List.mem_cons_self '.' _))
    | cons name' rest' =>
      rw [qualify, qualify] at h
      have hname : '.' ∉ name := hpath name (List.mem_cons_self _ _)
      have hname' : '.' ∉ name' := hpath' name' (List.mem_cons_self _ _)
      obtain ⟨rfl, htl⟩ := append_dot_inj hname hname' h
      obtain ⟨rfl, rfl⟩ := ih (fun s hs => hpath s (List.mem_cons_of_mem _ hs)) hp
        (fun s hs => hpath' s (List.mem_cons_of_mem _ hs)) hp' htl
      exact ⟨rfl, rfl⟩

/-- On a well-formed tree no path is both good and bad. -/
theorem goodPath_badPath_absurd (forbidden : List Nat) :
    ∀ (path : List PName) (m : Layer) (p : PName), Wf m →
      GoodPath forbidden m path p → BadPath forbidden m path p → False := by
  intro path
  induction path with
  | nil =>
    intro m p hwf hg hb
    cases hb
  | cons name rest ih =>
    intro m p hwf hg hb
    cases hg with
    | @step _ _ c _ _ hmem hty hg' =>
      cases hb with
      | @hit _ _ c' _ _ hmem' hty' hp =>
        have hcc : c = c' := by
          cases hwf with
          | mk h1 h2 h3 h4 => exact nodup_key_eq h3 hmem hmem'
        exact hty (hcc ▸ hty')
      | @deeper _ _ c' _ _ hmem' hb' =>
        have hcc : c = c' := by
          cases hwf with
          | mk h1 h2 h3 h4 => exact nodup_key_eq h3 hmem hmem'
        exact ih _ p (hwf.child hmem) hg' (hcc ▸ hb')

/-- Counting through a Boolean filter and its complement partitions the
count in the original list. -/
theorem count_filter_partition (l : List PName) (q : PName → Bool) (n : PName) :
    (l.filter q).count n + (l.filter (fun x => !(q x))).count n = l.count n := by
  induction l with
  | nil => rfl
  | cons a t ih =>
    by_cases hn : a = n
    · subst hn
      cases hq : q a <;> simp [List.filter_cons, hq, List.count_cons] at ih ⊢ <;> omega
    · cases hq : q a <;> simp [List.filter_cons, hq, List.count_cons, hn] <;> omega

/-- A LayerNorm child holding one parameter. -/
def lnChild : Layer := .mk nnLayerNorm [['x']] []

/-- An ordinary child holding a weight and a bias parameter. -/
def plainChild : Layer := .mk 1 [['w'], ['b', 'i', 'a', 's']] []

/-- A small concrete model used to instantiate the theorems. -/
def demoModel : Layer := .mk 2 [['r']] [(['l'], lnChild), (['c'], plainChild)]

/-- Leaf layers are well-formed when their parameter names are dot-free. -/
theorem wf_leaf (t : Nat) (ps : List PName) (h : ∀ p ∈ ps, '.' ∉ p) :
    Wf (.mk t ps []) :=
  Wf.mk h (by simp) (by simp) (by simp)

/-- The demo model is well-formed. -/
theorem demoModel_wf : Wf demoModel := by
  refine Wf.mk (by decide) (by decide) (by decide) ?_
  intro x hx
  rcases List.mem_cons.1 hx with rfl | hx'
  · exact wf_leaf _ _ (by decide)
  · rcases List.mem_cons.1 hx' with rfl | hx''
    · exact wf_leaf _ _ (by decide)
    · cases hx''

/-- Claim C4: `get_parameter_names(model, forbidden_layer_types)` returns
exactly the qualified names of the model's parameters that are not
reachable through a child module of forbidden type (the isinstance guard
excludes all or none of a child's names, as captured by `GoodPath`), and
the keys of the model's own direct `_parameters` are always included,
regardless of the model's own type. -/
theorem get_parameter_names_correct (m : Layer) (forbidden : List Nat) :
    (∀ x, x ∈ get_parameter_names m forbidden ↔
        ∃ path p, GoodPath forbidden m path p ∧ x = qualify path p) ∧
    (∀ p ∈ m.params, p ∈ get_parameter_names m forbidden) := by
  refine ⟨mem_get_parameter_names_iff forbidden m, ?_⟩
  intro p hp
  exact (mem_get_parameter_names_iff forbidden m p).2 ⟨[], p, GoodPath.here hp, rfl⟩

/-- Witness for C4 on the demo model. -/
theorem get_parameter_names_correct_witness :
    ['r'] ∈ demoModel.params ∧ ['r'] ∈ get_parameter_names demoModel [nnLayerNorm] :=
  ⟨by decide, (get_parameter_names_correct demoModel [nnLayerNorm]).2 ['r'] (by decide)⟩

/-- Claim C5: on any well-formed model, the two optimizer groups built in
`train` partition `model.named_parameters()` (each name occurs in the two
groups exactly as often as among the parameter names); the first group is
exactly the parameters whose qualified name is in `decay_parameters` and
carries `weight_decay = cfg.TRAIN.wd`, the second the rest with
`weight_decay = 0.0`; and every parameter whose name contains `"bias"`,
and every parameter lying under an `nn.LayerNorm` child, falls in the
zero-decay group. -/
theorem optimizer_groups_correct (model : Layer) (wd : ℚ) (hwf : Wf model) :
    optimizer_grouped_parameters model wd =
        [(decay_group_names model, wd), (no_decay_group_names model, 0)] ∧
    (∀ n, (decay_group_names model).count n + (no_decay_group_names model).count n
        = (named_parameters model).count n) ∧
    (∀ n, n ∈ decay_group_names model ↔
        n ∈ named_parameters model ∧ n ∈ decay_parameters model) ∧
    (∀ n, n ∈ no_decay_group_names model ↔
        n ∈ named_parameters model ∧ n ∉ decay_parameters model) ∧
    (∀ n ∈ named_parameters model, strIn biasStr n = true →
        n ∈ no_decay_group_names model) ∧
    (∀ (path : List PName) (p : PName), BadPath [nnLayerNorm] model path p →
        qualify path p ∈ named_parameters model →
        qualify path p ∈ no_decay_group_names model) := by
  refine ⟨rfl, ?_, ?_, ?_, ?_, ?_⟩
  · intro n
    exact count_filter_partition (named_parameters model)
      (fun n => (decay_parameters model).contains n) n
  · intro n
    simp [decay_group_names, List.mem_filter]
  · intro n
    simp [no_decay_group_names, List.mem_filter]
  · intro n hn hbias
    have hnd : n ∉ decay_parameters model := by
      intro hmem
      simp only [decay_parameters, List.mem_filter, hbias] at hmem
      simp at hmem
    rw [no_decay_group_names, List.mem_filter]
    exact ⟨hn, by simp [hnd]⟩
  · intro path p hbad hn
    have hnd : qualify path p ∉ decay_parameters model := by
      intro hmem
      rw [decay_parameters, List.mem_filter] at hmem
      obtain ⟨hging, _⟩ := hmem
      obtain ⟨path', p', hg, heq⟩ :=
        (mem_get_parameter_names_iff [nnLayerNorm] model _).1 hging
      have hbp : ParamPath model path p := hbad.badToParamPath
      obtain ⟨hdots, hpdots⟩ := hbp.nodot hwf
      have hgp : ParamPath model path' p' := hg.goodToParamPath
      obtain ⟨hdots', hpdots'⟩ := hgp.nodot hwf
      obtain ⟨h1, h2⟩ := qualify_inj hdots hpdots hdots' hpdots' heq
      subst h1
      subst h2
      exact goodPath_badPath_absurd [nnLayerNorm] path model p hwf hg hbad
    rw [no_decay_group_names, List.mem_filter]
    exact ⟨hn, by simp [hnd]⟩

/-- Witness for C5 on the demo model: the qualified bias name and a
parameter under the LayerNorm child both land in the zero-decay group. -/
theorem optimizer_groups_correct_witness :
    ['c', '.', 'b', 'i', 'a', 's'] ∈ no_decay_group_names demoModel ∧
    ['l', '.', 'x'] ∈ no_decay_group_names demoModel := by
  have h := optimizer_groups_correct demoModel 1 demoModel_wf
  refine ⟨h.2.2.2.2.1 _ (by decide) (by decide), ?_⟩
  have hb : BadPath [nnLayerNorm] demoModel [['l']] ['x'] :=
    BadPath.hit (c := lnChild) (by simp [demoModel, Layer.children]) (by decide)
      (ParamPath.here (by decide))
  exact h.2.2.2.2.2 [['l']] ['x'] hb (by decide)

/-! ### Part B: the driver functions as trace semantics -/

/-- `cfg.DATASET`. -/
structure DatasetSection where
  label_keys : List String
  in_len : Nat
  out_len : Nat
  in_stride : Nat
  out_stride : Nat
  train_samples_gap : Nat
  eval_samples_gap : Nat
  normalize_sst : Bool
deriving DecidableEq

/-- `cfg.MODEL` (only `input_keys` is read directly by this file; the
remaining entries are splatted unchanged into the model constructor). -/
structure ModelSection where
  input_keys : List String
deriving DecidableEq

/-- `cfg.TRAIN.lr_scheduler`. -/
structure LRSchedulerSection where
  learning_rate : ℚ
deriving DecidableEq

/-- `cfg.TRAIN`.  `min_lr` mirrors the config key `min_lr_ratio`. -/
structure TrainSection where
  batch_size : Nat
  epochs : Nat
  wd : ℚ
  update_freq : Nat
  eval_during_train : Bool
  lr_scheduler : LRSchedulerSection
  min_lr : ℚ
deriving DecidableEq

/-- `cfg.EVAL`. -/
structure EvalSection where
  batch_size : Nat
  compute_metric_by_batch : Bool
  eval_with_no_grad : Bool
  pretrained_model_path : Option String
deriving DecidableEq

/-- `cfg.RNC`. -/
structure RNCSection where
  use_rnc : Bool
  rnc_pretrain : Bool
  load_rnc_pretrain_params : Bool
  pretrain_update_freq : Nat
deriving DecidableEq

/-- The hydra configuration object.  `MOE` is an opaque payload (the
file converts it with `OmegaConf.to_object` and passes it through without
inspecting it). -/
structure Config where
  mode : String
  output_dir : String
  FILE_PATH : String
  seed : Nat
  DEVICE : Int
  log_freq : Nat
  DATASET : DatasetSection
  MODEL : ModelSection
  TRAIN : TrainSection
  EVAL : EvalSection
  RNC : RNCSection
  MOE : Nat
deriving DecidableEq

/-- The `"dataset"` sub-dict of a dataloader configuration.  `training`
is the optional `"training"` key (absent in the train dataloader). -/
structure DatasetDict where
  name : String
  data_dir : String
  input_keys : List String
  label_keys : List String
  in_len : Nat
  out_len : Nat
  in_stride : Nat
  out_stride : Nat
  train_samples_gap : Nat
  eval_samples_gap : Nat
  normalize_sst : Bool
  training : Option String
deriving DecidableEq

/-- The `"sampler"` sub-dict. -/
structure SamplerDict where
  name : String
  drop_last : Bool
  shuffle : Bool
deriving DecidableEq

/-- A dataloader configuration dictionary.  Optional fields record keys
that some of the dicts in the file do not set. -/
structure DataloaderCfg where
  dataset : DatasetDict
  sampler : Option SamplerDict
  batch_size : Nat
  num_workers : Option Nat
deriving DecidableEq

/-- The loss callables of `examples.extformer_moe.enso_metric` named by
this file. -/
inductive LossFn where
  | train_extformer_moe_func
  | rnc_pretrain_func
deriving DecidableEq

/-- The metric callables of `examples.extformer_moe.enso_metric` named by
this file. -/
inductive MetricFn where
  | eval_rmse_func
  | eval_rnc_pretrain_func
deriving DecidableEq

/-- `ppsci.loss.FunctionalLoss`: a wrapper storing a loss callable as
data; the driver never invokes it. -/
structure FunctionalLoss where
  fn : LossFn
deriving DecidableEq

/-- `ppsci.metric.FunctionalMetric`: a wrapper storing a metric callable
as data; the driver never invokes it. -/
structure FunctionalMetric where
  fn : MetricFn
deriving DecidableEq

/-- `ppsci.constraint.SupervisedConstraint` as constructed here: its
dataloader configuration, wrapped loss, and name. -/
structure SupervisedConstraint where
  dataloader_cfg : DataloaderCfg
  loss : FunctionalLoss
  name : String
deriving DecidableEq

/-- `ppsci.validate.SupervisedValidator` as constructed here: its
dataloader configuration, wrapped loss, named wrapped metrics, and name. -/
structure SupervisedValidator where
  dataloader_cfg : DataloaderCfg
  loss : FunctionalLoss
  metric : List (String × FunctionalMetric)
  name : String
deriving DecidableEq

/-- Lines 35-56: the train dataloader configuration. -/
def train_dataloader_cfg (cfg : Config) : DataloaderCfg :=
  { dataset :=
      { name := "ExtMoEENSODataset"
        data_dir := cfg.FILE_PATH
        input_keys := cfg.MODEL.input_keys
        label_keys := cfg.DATASET.label_keys
        in_len := cfg.DATASET.in_len
        out_len := cfg.DATASET.out_len
        in_stride := cfg.DATASET.in_stride
        out_stride := cfg.DATASET.out_stride
        train_samples_gap := cfg.DATASET.train_samples_gap
        eval_samples_gap := cfg.DATASET.eval_samples_gap
        normalize_sst := cfg.DATASET.normalize_sst
        training := none }
    sampler := some { name := "BatchSampler", drop_last := true, shuffle := true }
    batch_size := cfg.TRAIN.batch_size
    num_workers := some 8 }

/-- Lines 59-63: the supervised training constraint. -/
def sup_constraint (cfg : Config) : SupervisedConstraint :=
  { dataloader_cfg := train_dataloader_cfg cfg
    loss := { fn := .train_extformer_moe_func }
    name := "Sup" }

/-- Lines 69-85: the in-training eval dataloader configuration. -/
def eval_dataloader_cfg (cfg : Config) : DataloaderCfg :=
  { dataset :=
      { name := "ExtMoEENSODataset"
        data_dir := cfg.FILE_PATH
        input_keys := cfg.MODEL.input_keys
        label_keys := cfg.DATASET.label_keys
        in_len := cfg.DATASET.in_len
        out_len := cfg.DATASET.out_len
        in_stride := cfg.DATASET.in_stride
        out_stride := cfg.DATASET.out_stride
        train_samples_gap := cfg.DATASET.train_samples_gap
        eval_samples_gap := cfg.DATASET.eval_samples_gap
        normalize_sst := cfg.DATASET.normalize_sst
        training := some "eval" }
    sampler := none
    batch_size := cfg.EVAL.batch_size
    num_workers := none }

/-- Lines 87-94: the in-training validator. -/
def sup_validator (cfg : Config) : SupervisedValidator :=
  { dataloader_cfg := eval_dataloader_cfg cfg
    loss := { fn := .train_extformer_moe_func }
    metric := [("rmse", { fn := .eval_rmse_func })]
    name := "Sup_Validator" }

/-- Lines 145-166: the RNC pretraining eval dataloader configuration. -/
def rnc_eval_dataloader_cfg (cfg : Config) : DataloaderCfg :=
  { dataset :=
      { name := "ExtMoEENSODataset"
        data_dir := cfg.FILE_PATH
        input_keys := cfg.MODEL.input_keys
        label_keys := cfg.DATASET.label_keys
        in_len := cfg.DATASET.in_len
        out_len := cfg.DATASET.out_len
        in_stride := cfg.DATASET.in_stride
        out_stride := cfg.DATASET.out_stride
        train_samples_gap := cfg.DATASET.train_samples_gap
        eval_samples_gap := cfg.DATASET.eval_samples_gap
        normalize_sst := cfg.DATASET.normalize_sst
        training := some "eval" }
    sampler := some { name := "BatchSampler", drop_last := true, shuffle := true }
    batch_size := cfg.TRAIN.batch_size
    num_workers := none }

/-- Lines 138-142: the RNC pretraining constraint. -/
def rnc_sup_constraint (cfg : Config) : SupervisedConstraint :=
  { dataloader_cfg := train_dataloader_cfg cfg
    loss := { fn := .rnc_pretrain_func }
    name := "RNCSup" }

/-- Lines 168-175: the RNC pretraining validator. -/
def rnc_sup_validator (cfg : Config) : SupervisedValidator :=
  { dataloader_cfg := rnc_eval_dataloader_cfg cfg
    loss := { fn := .rnc_pretrain_func }
    metric := [("rnc_loss", { fn := .eval_rnc_pretrain_func })]
    name := "RNCSup_Validator" }

/-- Lines 236-252: the dataloader configuration of `evaluate`. -/
def evaluate_dataloader_cfg (cfg : Config) : DataloaderCfg :=
  { dataset :=
      { name := "ExtMoEENSODataset"
        data_dir := cfg.FILE_PATH
        input_keys := cfg.MODEL.input_keys
        label_keys := cfg.DATASET.label_keys
        in_len := cfg.DATASET.in_len
        out_len := cfg.DATASET.out_len
        in_stride := cfg.DATASET.in_stride
        out_stride := cfg.DATASET.out_stride
        train_samples_gap := cfg.DATASET.train_samples_gap
        eval_samples_gap := cfg.DATASET.eval_samples_gap
        normalize_sst := cfg.DATASET.normalize_sst
        training := some "test" }
    sampler := none
    batch_size := cfg.EVAL.batch_size
    num_workers := none }

/-- Lines 254-261: the validator of `evaluate`. -/
def evaluate_sup_validator (cfg : Config) : SupervisedValidator :=
  { dataloader_cfg := evaluate_dataloader_cfg cfg
    loss := { fn := .train_extformer_moe_func }
    metric := [("rmse", { fn := .eval_rmse_func })]
    name := "Sup_Validator" }

/-- `os.path.join` on POSIX for two components. -/
def osPathJoin (a b : String) : String :=
  if b.startsWith "/" then b
  else if a = "" || a.endsWith "/" then a ++ b
  else a ++ "/" ++ b

/-- The device string computed in `train`, `evaluate` and `main`:
`f"gpu:{cfg.DEVICE}"` when `cfg.DEVICE != -1`, else `"cpu"`. -/
def deviceStr (cfg : Config) : String :=
  if cfg.DEVICE != -1 then "gpu:" ++ toString cfg.DEVICE else "cpu"

/-- The arguments of `ppsci.optimizer.lr_scheduler.Cosine` as passed on
lines 119-125.  `warmup_epoch` is `int(0.2 * cfg.TRAIN.epochs)`:
multiplication by 0.2 followed by truncation toward zero, expressed in
exact rational arithmetic. -/
structure CosineArgs where
  learning_rate : ℚ
  iters_per_epoch : Nat
  eta_min : ℚ
  warmup_epoch : Nat
deriving DecidableEq

/-- Lines 119-125: the Cosine scheduler arguments.  `loaderLen` is
`len(sup_constraint.data_loader)`, the length the external framework
gives the train data loader (line 67). -/
def lr_scheduler_args (cfg : Config) (loaderLen : Nat) : CosineArgs :=
  { learning_rate := cfg.TRAIN.lr_scheduler.learning_rate
    iters_per_epoch := loaderLen
    eta_min := cfg.TRAIN.min_lr * cfg.TRAIN.lr_scheduler.learning_rate
    warmup_epoch := Int.toNat ⌊(0.2 : ℚ) * (cfg.TRAIN.epochs : ℚ)⌋ }

/-- Line 203 (and line 206): the `pretrained_model_path` variable handed
to the main solver. -/
def pretrained_model_path (cfg : Config) : Option String :=
  if cfg.RNC.use_rnc && cfg.RNC.rnc_pretrain then
    some (osPathJoin (osPathJoin cfg.output_dir "rnc_pretrain") "checkpoints"
      ++ "/best_model.pdparams")
  else none

/-- The arguments of a `ppsci.solver.Solver` construction.  `constraint`
holds the names of the constraints passed (`none` when the argument is
omitted, as in `evaluate`); `has_optimizer` / `has_lr_scheduler` record
whether those objects are passed. -/
structure SolverArgs where
  constraint : Option (List String)
  output_dir : String
  has_optimizer : Bool
  has_lr_scheduler : Bool
  epochs : Option Nat
  iters_per_epoch : Option Nat
  update_freq : Option Nat
  eval_during_train : Option Bool
  seed : Nat
  device : String
  validator : List String
  pretrained_model_path : Option String
  compute_metric_by_batch : Bool
  eval_with_no_grad : Bool
  log_freq : Option Nat
deriving DecidableEq

/-- Lines 178-193: the RNC pretraining solver construction. -/
def rnc_solver_args (cfg : Config) (loaderLen : Nat) : SolverArgs :=
  { constraint := some ["RNCSup"]
    output_dir := osPathJoin cfg.output_dir "rnc_pretrain"
    has_optimizer := true
    has_lr_scheduler := true
    epochs := some cfg.TRAIN.epochs
    iters_per_epoch := some loaderLen
    update_freq := some cfg.RNC.pretrain_update_freq
    eval_during_train := some cfg.TRAIN.eval_during_train
    seed := cfg.seed
    device := deviceStr cfg
    validator := ["RNCSup_Validator"]
    pretrained_model_path := none
    compute_metric_by_batch := cfg.EVAL.compute_metric_by_batch
    eval_with_no_grad := cfg.EVAL.eval_with_no_grad
    log_freq := none }

/-- Lines 210-226: the main solver construction. -/
def main_solver_args (cfg : Config) (loaderLen : Nat) : SolverArgs :=
  { constraint := some ["Sup"]
    output_dir := cfg.output_dir
    has_optimizer := true
    has_lr_scheduler := true
    epochs := some cfg.TRAIN.epochs
    iters_per_epoch := some loaderLen
    update_freq := some cfg.TRAIN.update_freq
    eval_during_train := some cfg.TRAIN.eval_during_train
    seed := cfg.seed
    device := deviceStr cfg
    validator := ["Sup_Validator"]
    pretrained_model_path := pretrained_model_path cfg
    compute_metric_by_batch := cfg.EVAL.compute_metric_by_batch
    eval_with_no_grad := cfg.EVAL.eval_with_no_grad
    log_freq := none }

/-- Lines 271-281: the solver construction of `evaluate`: no constraint,
no optimizer, no lr scheduler, no epochs. -/
def evaluate_solver_args (cfg : Config) : SolverArgs :=
  { constraint := none
    output_dir := cfg.output_dir
    has_optimizer := false
    has_lr_scheduler := false
    epochs := none
    iters_per_epoch := none
    update_freq := none
    eval_during_train := none
    seed := cfg.seed
    device := deviceStr cfg
    validator := ["Sup_Validator"]
    pretrained_model_path := cfg.EVAL.pretrained_model_path
    compute_metric_by_batch := cfg.EVAL.compute_metric_by_batch
    eval_with_no_grad := cfg.EVAL.eval_with_no_grad
    log_freq := some cfg.log_freq }

/-- The solver objects this file constructs. -/
inductive SolverId where
  | rnc
  | main
  | evalOnly
deriving DecidableEq

/-- One externally visible action of the driver, in program order. -/
inductive Event where
  | assembleDataloaderCfg (c : DataloaderCfg)
  | buildConstraint (c : SupervisedConstraint)
  | buildValidator (v : SupervisedValidator)
  | buildModel (model_cfg : ModelSection) (moe_config : Nat) (rnc_config : RNCSection)
  | groupParameters
  | buildLRScheduler (a : CosineArgs)
  | buildOptimizer
  | setRncPretrainFlag (b : Bool)
  | constructSolver (id : SolverId) (a : SolverArgs)
  | solverTrain (id : SolverId)
  | solverEval (id : SolverId)
deriving DecidableEq

/-- The trace of `train(cfg)` (lines 33-231).  `loaderLen` is the length
of the train data loader built by the external framework (line 67). -/
def trainTrace (cfg : Config) (loaderLen : Nat) : List Event :=
  [ .assembleDataloaderCfg (train_dataloader_cfg cfg),
    .buildConstraint (sup_constraint cfg),
    .assembleDataloaderCfg (eval_dataloader_cfg cfg),
    .buildValidator (sup_validator cfg),
    .buildModel cfg.MODEL cfg.MOE cfg.RNC,
    .groupParameters,
    .buildLRScheduler (lr_scheduler_args cfg loaderLen),
    .buildOptimizer ]
  ++ (if cfg.RNC.use_rnc && cfg.RNC.rnc_pretrain then
        (if !cfg.RNC.load_rnc_pretrain_params then
          [ .setRncPretrainFlag true,
            .buildConstraint (rnc_sup_constraint cfg),
            .assembleDataloaderCfg (rnc_eval_dataloader_cfg cfg),
            .buildValidator (rnc_sup_validator cfg),
            .constructSolver .rnc (rnc_solver_args cfg loaderLen),
            .solverTrain .rnc,
            .solverEval .rnc ]
         else [])
      else [])
  ++ [ .setRncPretrainFlag false,
       .constructSolver .main (main_solver_args cfg loaderLen),
       .solverTrain .main,
       .solverEval .main ]

/-- The trace of `evaluate(cfg)` (lines 234-283). -/
def evaluateTrace (cfg : Config) : List Event :=
  [ .assembleDataloaderCfg (evaluate_dataloader_cfg cfg),
    .buildValidator (evaluate_sup_validator cfg),
    .buildModel cfg.MODEL cfg.MOE cfg.RNC,
    .constructSolver .evalOnly (evaluate_solver_args cfg),
    .solverEval .evalOnly ]

/-- The error message of the `ValueError` raised by `main` on an unknown
mode. -/
def modeError (mode : String) : String :=
  "cfg.mode should in [train, eval], but got " ++ mode

/-- `main(cfg)` (lines 291-300): the device passed to
`paddle.device.set_device`, and either the trace of the dispatched
function or the `ValueError`.  (Named `mainFn` because Lean reserves
`main` for executables.) -/
def mainFn (cfg : Config) (loaderLen : Nat) : String × Except String (List Event) :=
  let device := if cfg.DEVICE != -1 then "gpu:" ++ toString cfg.DEVICE else "cpu"
  if cfg.mode = "train" then (device, .ok (trainTrace cfg loaderLen))
  else if cfg.mode = "eval" then (device, .ok (evaluateTrace cfg))
  else (device, .error (modeError cfg.mode))

/-- Is the event a call into a solver's `train()` or `eval()`? -/
def isSolverCall : Event → Bool
  | .solverTrain _ => true
  | .solverEval _ => true
  | _ => false

/-- Is the event a call on the main solver object? -/
def isMainSolverCall : Event → Bool
  | .solverTrain .main => true
  | .solverEval .main => true
  | _ => false

/-- Is the event a construction of, or call on, the RNC solver? -/
def isRncSolverEvent : Event → Bool
  | .constructSolver .rnc _ => true
  | .solverTrain .rnc => true
  | .solverEval .rnc => true
  | _ => false

/-- Is the event a solver construction or a solver call? -/
def isSolverPhaseEvent : Event → Bool
  | .constructSolver _ _ => true
  | .solverTrain _ => true
  | .solverEval _ => true
  | _ => false

/-- The externally visible state of the model object: its parameter
values (of an arbitrary type `P`) and its `rnc_pretrain_flag` attribute. -/
structure ModelState (P : Type) where
  params : P
  rnc_pretrain_flag : Bool

/-- The direct effect of a driver event on the model object, read off the
source: the assignments `model.rnc_pretrain_flag = True/False` (lines 136
and 209) set the flag; every other statement of the driver leaves the
model untouched (solver calls are excluded before folding with this). -/
def driverStep {P : Type} (m : ModelState P) : Event → ModelState P
  | .setRncPretrainFlag b => { m with rnc_pretrain_flag := b }
  | _ => m

/-- Lines 35-94 of `train` in order: the configuration-assembly phase,
before the model is constructed. -/
def configAssemblyPhase (cfg : Config) : List Event :=
  [ .assembleDataloaderCfg (train_dataloader_cfg cfg),
    .buildConstraint (sup_constraint cfg),
    .assembleDataloaderCfg (eval_dataloader_cfg cfg),
    .buildValidator (sup_validator cfg) ]

/-- Lines 103-128 of `train` in order: parameter grouping, learning-rate
schedule and optimizer construction. -/
def optimizerPhase (cfg : Config) (loaderLen : Nat) : List Event :=
  [ .groupParameters,
    .buildLRScheduler (lr_scheduler_args cfg loaderLen),
    .buildOptimizer ]

/-- Lines 130-231 of `train` in order: the optional RNC pretraining
stage followed by the main solver. -/
def solverPhase (cfg : Config) (loaderLen : Nat) : List Event :=
  (if cfg.RNC.use_rnc && cfg.RNC.rnc_pretrain then
    (if !cfg.RNC.load_rnc_pretrain_params then
      [ .setRncPretrainFlag true,
        .buildConstraint (rnc_sup_constraint cfg),
        .assembleDataloaderCfg (rnc_eval_dataloader_cfg cfg),
        .buildValidator (rnc_sup_validator cfg),
        .constructSolver .rnc (rnc_solver_args cfg loaderLen),
        .solverTrain .rnc,
        .solverEval .rnc ]
     else [])
   else [])
  ++ [ .setRncPretrainFlag false,
       .constructSolver .main (main_solver_args cfg loaderLen),
       .solverTrain .main,
       .solverEval .main ]

/-- Claim C1: with `cfg.RNC.use_rnc` and `cfg.RNC.rnc_pretrain` both true
and `cfg.RNC.load_rnc_pretrain_params` false, `train(cfg)` runs the RNC
pretraining stage to completion (`rnc_solver.train()` then
`rnc_solver.eval()`) strictly before the main `solver.train()`, as the
trace decomposition shows; and when either RNC flag is false, no RNC
solver is constructed or run. -/
theorem rnc_pretrain_before_main_train (cfg : Config) (loaderLen : Nat) :
    (cfg.RNC.use_rnc = true → cfg.RNC.rnc_pretrain = true →
      cfg.RNC.load_rnc_pretrain_params = false →
      trainTrace cfg loaderLen =
        configAssemblyPhase cfg
          ++ [.buildModel cfg.MODEL cfg.MOE cfg.RNC]
          ++ optimizerPhase cfg loaderLen
          ++ [ .setRncPretrainFlag true,
               .buildConstraint (rnc_sup_constraint cfg),
               .assembleDataloaderCfg (rnc_eval_dataloader_cfg cfg),
               .buildValidator (rnc_sup_validator cfg),
               .constructSolver .rnc (rnc_solver_args cfg loaderLen),
               .solverTrain .rnc,
               .solverEval .rnc,
               .setRncPretrainFlag false,
               .constructSolver .main (main_solver_args cfg loaderLen),
               .solverTrain .main,
               .solverEval .main ]) ∧
    ((cfg.RNC.use_rnc = false ∨ cfg.RNC.rnc_pretrain = false) →
      (trainTrace cfg loaderLen).filter isRncSolverEvent = []) := by
  constructor
  · intro h1 h2 h3
    simp [trainTrace, configAssemblyPhase, optimizerPhase, h1, h2, h3]
  · intro h
    rcases h with h | h <;> simp [trainTrace, isRncSolverEvent, h]

/-- Claim C2: whenever both RNC flags are true (whether or not
pretraining ran in this invocation), the main solver is constructed with
`pretrained_model_path` equal to
`os.path.join(cfg.output_dir, "rnc_pretrain", "checkpoints") +
"/best_model.pdparams"`; in every other case it is `None`. -/
theorem main_solver_pretrained_path (cfg : Config) (loaderLen : Nat) :
    Event.constructSolver .main (main_solver_args cfg loaderLen)
        ∈ trainTrace cfg loaderLen ∧
    (cfg.RNC.use_rnc = true → cfg.RNC.rnc_pretrain = true →
      (main_solver_args cfg loaderLen).pretrained_model_path =
        some (osPathJoin (osPathJoin cfg.output_dir "rnc_pretrain") "checkpoints"
          ++ "/best_model.pdparams")) ∧
    (¬(cfg.RNC.use_rnc = true ∧ cfg.RNC.rnc_pretrain = true) →
      (main_solver_args cfg loaderLen).pretrained_model_path = none) := by
  refine ⟨?_, ?_, ?_⟩
  · simp [trainTrace]
  · intro h1 h2
    simp [main_solver_args, pretrained_model_path, h1, h2]
  · intro h
    cases hu : cfg.RNC.use_rnc <;> cases hp : cfg.RNC.rnc_pretrain
    · simp [main_solver_args, pretrained_model_path, hu, hp]
    · simp [main_solver_args, pretrained_model_path, hu, hp]
    · simp [main_solver_args, pretrained_model_path, hu, hp]
    · exact absurd ⟨hu, hp⟩ h

/-- Claim C3: in every configuration, the calls on the main solver object
are exactly `solver.train()` followed by `solver.eval()`: evaluation of
the trained model never precedes the completion of training. -/
theorem main_solver_train_then_eval (cfg : Config) (loaderLen : Nat) :
    (trainTrace cfg loaderLen).filter isMainSolverCall
      = [.solverTrain .main, .solverEval .main] := by
  cases hu : cfg.RNC.use_rnc <;> cases hp : cfg.RNC.rnc_pretrain <;>
    cases hl : cfg.RNC.load_rnc_pretrain_params <;>
      simp [trainTrace, isMainSolverCall, hu, hp, hl]

/-- Claim C6: `train(cfg)` proceeds in the stated order: the dataset /
dataloader configuration dictionaries and constraint/validator objects,
then the `ExtFormerMoECuboid` model built from `cfg.MODEL` with the
converted MOE and RNC configs, then the AdamW optimizer with its Cosine
schedule (`iters_per_epoch` from the train data loader length,
`warmup_epoch = int(0.2 * cfg.TRAIN.epochs)`,
`eta_min = cfg.TRAIN.min_lr_ratio * learning_rate`), and only then the
solver constructions and calls. -/
theorem train_phase_order (cfg : Config) (loaderLen : Nat) :
    trainTrace cfg loaderLen =
      configAssemblyPhase cfg
        ++ [.buildModel cfg.MODEL cfg.MOE cfg.RNC]
        ++ optimizerPhase cfg loaderLen
        ++ solverPhase cfg loaderLen ∧
    (configAssemblyPhase cfg).filter isSolverPhaseEvent = [] ∧
    (optimizerPhase cfg loaderLen).filter isSolverPhaseEvent = [] ∧
    (lr_scheduler_args cfg loaderLen).iters_per_epoch = loaderLen ∧
    (lr_scheduler_args cfg loaderLen).warmup_epoch
      = Int.toNat ⌊(0.2 : ℚ) * (cfg.TRAIN.epochs : ℚ)⌋ ∧
    (lr_scheduler_args cfg loaderLen).eta_min
      = cfg.TRAIN.min_lr * cfg.TRAIN.lr_scheduler.learning_rate := by
  refine ⟨?_, rfl, rfl, rfl, rfl, rfl⟩
  simp [trainTrace, configAssemblyPhase, optimizerPhase, solverPhase]

/-- Claim C7: the dataloader configuration dictionaries describe the
dataset path, key lists and batch sizes exactly as drawn from the
configuration: `data_dir = cfg.FILE_PATH`,
`input_keys = cfg.MODEL.input_keys`,
`label_keys = cfg.DATASET.label_keys`, the training constraint batch size
is `cfg.TRAIN.batch_size` and the validator batch size is
`cfg.EVAL.batch_size`. -/
theorem dataloader_cfg_fields (cfg : Config) :
    (train_dataloader_cfg cfg).dataset.data_dir = cfg.FILE_PATH ∧
    (train_dataloader_cfg cfg).dataset.input_keys = cfg.MODEL.input_keys ∧
    (train_dataloader_cfg cfg).dataset.label_keys = cfg.DATASET.label_keys ∧
    (train_dataloader_cfg cfg).batch_size = cfg.TRAIN.batch_size ∧
    (eval_dataloader_cfg cfg).dataset.data_dir = cfg.FILE_PATH ∧
    (eval_dataloader_cfg cfg).dataset.input_keys = cfg.MODEL.input_keys ∧
    (eval_dataloader_cfg cfg).dataset.label_keys = cfg.DATASET.label_keys ∧
    (eval_dataloader_cfg cfg).batch_size = cfg.EVAL.batch_size :=
  ⟨rfl, rfl, rfl, rfl, rfl, rfl, rfl, rfl⟩

/-- Claim C8: outside the opaque solver calls, the driver leaves the
model's parameter values unchanged — its only direct writes to the model
are the `rnc_pretrain_flag` attribute (true before pretraining, false
before the main stage) — and every loss or metric the file names is
handed to the solver wrapped as configuration data
(`FunctionalLoss` / `FunctionalMetric`), never evaluated here. -/
theorem driver_frame (cfg : Config) (loaderLen : Nat) (P : Type) (m : ModelState P) :
    ((trainTrace cfg loaderLen).filter (fun e => !(isSolverCall e))).foldl driverStep m
      = { params := m.params, rnc_pretrain_flag := false } ∧
    (sup_constraint cfg).loss = { fn := .train_extformer_moe_func } ∧
    (sup_validator cfg).loss = { fn := .train_extformer_moe_func } ∧
    (sup_validator cfg).metric = [("rmse", { fn := .eval_rmse_func })] ∧
    (rnc_sup_constraint cfg).loss = { fn := .rnc_pretrain_func } ∧
    (rnc_sup_validator cfg).loss = { fn := .rnc_pretrain_func } ∧
    (rnc_sup_validator cfg).metric = [("rnc_loss", { fn := .eval_rnc_pretrain_func })] := by
  refine ⟨?_, rfl, rfl, rfl, rfl, rfl, rfl⟩
  cases hu : cfg.RNC.use_rnc <;> cases hp : cfg.RNC.rnc_pretrain <;>
    cases hl : cfg.RNC.load_rnc_pretrain_params <;>
      simp [trainTrace, isSolverCall, driverStep, hu, hp, hl]

/-- Claim C9: in eval mode the file evaluates only: `evaluate(cfg)`
builds its dataset dict with `"training": "test"` (the in-training
validator uses `"training": "eval"`), constructs the solver without
constraints or optimizer, and the only solver call in its trace is
`solver.eval()`. -/
theorem evaluate_eval_only (cfg : Config) :
    (evaluate_dataloader_cfg cfg).dataset.training = some "test" ∧
    (eval_dataloader_cfg cfg).dataset.training = some "eval" ∧
    (evaluate_solver_args cfg).constraint = none ∧
    (evaluate_solver_args cfg).has_optimizer = false ∧
    (evaluateTrace cfg).filter isSolverCall = [.solverEval .evalOnly] :=
  ⟨rfl, rfl, rfl, rfl, rfl⟩

/-- Claim C10: `main(cfg)` sets the paddle device to `"cpu"` exactly when
`cfg.DEVICE = -1` and to `f"gpu:{cfg.DEVICE}"` otherwise, then dispatches
on `cfg.mode`: `train(cfg)` for `"train"`, `evaluate(cfg)` for `"eval"`,
and a `ValueError` for every other mode. -/
theorem main_mode_dispatch (cfg : Config) (loaderLen : Nat) :
    ((mainFn cfg loaderLen).1 = "cpu" ↔ cfg.DEVICE = -1) ∧
    (cfg.DEVICE ≠ -1 → (mainFn cfg loaderLen).1 = "gpu:" ++ toString cfg.DEVICE) ∧
    (cfg.mode = "train" → (mainFn cfg loaderLen).2 = .ok (trainTrace cfg loaderLen)) ∧
    (cfg.mode = "eval" → (mainFn cfg loaderLen).2 = .ok (evaluateTrace cfg)) ∧
    (cfg.mode ≠ "train" → cfg.mode ≠ "eval" →
      (mainFn cfg loaderLen).2 = .error (modeError cfg.mode)) := by
  have hdev : (mainFn cfg loaderLen).1
      = (if cfg.DEVICE != -1 then "gpu:" ++ toString cfg.DEVICE else "cpu") := by
    by_cases h1 : cfg.mode = "train" <;> by_cases h2 : cfg.mode = "eval" <;>
      simp [mainFn, h1, h2]
  refine ⟨?_, ?_, ?_, ?_, ?_⟩
  · rw [hdev]
    by_cases hd : cfg.DEVICE = -1
    · simp [hd]
    · simp only [hd, bne_iff_ne, ne_eq, not_false_iff, if_pos]
      constructor
      · intro h
        exfalso
        have hdata := congrArg String.data h
        simp [String.data_append] at hdata
      · intro h
        exact h.elim
  · intro hd
    rw [hdev]
    simp [hd]
  · intro hm
    simp [mainFn, hm]
  · intro hm
    have hm' : cfg.mode ≠ "train" := by rw [hm]; decide
    simp [mainFn, hm, hm']
  · intro h1 h2
    simp [mainFn, h1, h2]

/-- A concrete `cfg.DATASET` used to instantiate the theorems. -/
def demoDataset : DatasetSection :=
  { label_keys := ["sst_target"]
    in_len := 12
    out_len := 14
    in_stride := 1
    out_stride := 1
    train_samples_gap := 2
    eval_samples_gap := 1
    normalize_sst := true }

/-- A concrete configuration in train mode with both RNC flags set and
`load_rnc_pretrain_params` false. -/
def demoConfig : Config :=
  { mode := "train"
    output_dir := "outputs"
    FILE_PATH := "datasets/enso"
    seed := 0
    DEVICE := 0
    log_freq := 20
    DATASET := demoDataset
    MODEL := { input_keys := ["sst_data"] }
    TRAIN :=
      { batch_size := 16
        epochs := 100
        wd := 1
        update_freq := 1
        eval_during_train := true
        lr_scheduler := { learning_rate := 1 }
        min_lr := 1 }
    EVAL :=
      { batch_size := 16
        compute_metric_by_batch := true
        eval_with_no_grad := true
        pretrained_model_path := none }
    RNC :=
      { use_rnc := true
        rnc_pretrain := true
        load_rnc_pretrain_params := false
        pretrain_update_freq := 1 }
    MOE := 0 }

/-- `demoConfig` with RNC disabled. -/
def demoConfigNoRnc : Config :=
  { demoConfig with
    RNC :=
      { use_rnc := false
        rnc_pretrain := false
        load_rnc_pretrain_params := false
        pretrain_update_freq := 1 } }

/-- `demoConfig` in eval mode. -/
def demoConfigEval : Config := { demoConfig with mode := "eval" }

/-- `demoConfig` with an unknown mode. -/
def demoConfigBadMode : Config := { demoConfig with mode := "test" }

/-- `demoConfig` on CPU. -/
def demoConfigCpu : Config := { demoConfig with DEVICE := -1 }

/-- Witness for C1 at concrete configurations. -/
theorem rnc_pretrain_before_main_train_witness :
    trainTrace demoConfig 4 =
      configAssemblyPhase demoConfig
        ++ [.buildModel demoConfig.MODEL demoConfig.MOE demoConfig.RNC]
        ++ optimizerPhase demoConfig 4
        ++ [ .setRncPretrainFlag true,
             .buildConstraint (rnc_sup_constraint demoConfig),
             .assembleDataloaderCfg (rnc_eval_dataloader_cfg demoConfig),
             .buildValidator (rnc_sup_validator demoConfig),
             .constructSolver .rnc (rnc_solver_args demoConfig 4),
             .solverTrain .rnc,
             .solverEval .rnc,
             .setRncPretrainFlag false,
             .constructSolver .main (main_solver_args demoConfig 4),
             .solverTrain .main,
             .solverEval .main ] ∧
    (trainTrace demoConfigNoRnc 4).filter isRncSolverEvent = [] :=
  ⟨(rnc_pretrain_before_main_train demoConfig 4).1 rfl rfl rfl,
   (rnc_pretrain_before_main_train demoConfigNoRnc 4).2 (Or.inl rfl)⟩

/-- Witness for C2 at concrete configurations. -/
theorem main_solver_pretrained_path_witness :
    (main_solver_args demoConfig 4).pretrained_model_path =
      some (osPathJoin (osPathJoin demoConfig.output_dir "rnc_pretrain") "checkpoints"
        ++ "/best_model.pdparams") ∧
    (main_solver_args demoConfigNoRnc 4).pretrained_model_path = none :=
  ⟨(main_solver_pretrained_path demoConfig 4).2.1 rfl rfl,
   (main_solver_pretrained_path demoConfigNoRnc 4).2.2 (by decide)⟩

/-- Witness for C10 at concrete configurations. -/
theorem main_mode_dispatch_witness :
    (mainFn demoConfigCpu 4).1 = "cpu" ∧
    (mainFn demoConfig 4).2 = .ok (trainTrace demoConfig 4) ∧
    (mainFn demoConfigEval 4).2 = .ok (evaluateTrace demoConfigEval) ∧
    (mainFn demoConfigBadMode 4).2 = .error (modeError "test") :=
  ⟨(main_mode_dispatch demoConfigCpu 4).1.mpr rfl,
   (main_mode_dispatch demoConfig 4).2.2.1 rfl,
   (main_mode_dispatch demoConfigEval 4).2.2.2.1 rfl,
   (main_mode_dispatch demoConfigBadMode 4).2.2.2.2 (by decide) (by decide)⟩
